import Mathlib

/-!
Shallow embedding of `src/main.rs` of the random-number microservice.

Modelling conventions:
* JSON documents are modelled at the value level by the inductive `Json`.
  A request body is an `Option Json`: `none` models a byte buffer that is
  not well-formed JSON text (the text-level parse of `serde_json::from_slice`
  failed), `some v` models a buffer whose text parses to the value `v`.
  Integer and floating-point JSON numbers are separate constructors, as in
  `serde_json::Value::Number`; `f64` values are modelled as rationals
  (every finite `f64` is a rational, and every value these claims touch is
  exactly representable).
* The query string of the URI is modelled by the result of
  `queryst::parse(...)`: `none` models an absent or unparseable query string
  (the `unwrap_or(Value::Null)` branch), `some v` a successfully parsed one.
* The thread-local RNG is modelled by `RngState`: a raw word stream value
  `word` (an arbitrary natural; 64-bit draws are `word % 2^64`) and a
  gaussian draw `gauss` for the `Normal` arm.
* A Rust panic (a failed assertion inside the `rand` distribution
  constructors) is modelled by `Option.none` in `handle_request` and
  `microservice_handler`: no HTTP response is produced.
* Both forms of serde's adjacently tagged enum encoding are modelled:
  objects with `distribution` and `parameters` fields, and two-element
  `[tag, content]` arrays (the derived deserializer's seq form); the
  non-flattened `Normal`/`Bernoulli` struct variants additionally accept
  their parameters as arrays listing the fields in declaration order
  (serde_json's struct-from-seq), while the flattened `Uniform` variant
  does not. A duplicated known field is a decode error, as in serde's
  streaming map access; unknown fields are ignored.
* The `address` CLI argument is declared on the `run` subcommand
  (main.rs:126-135), but `main` reads it through the top-level
  `matches.value_of("address")`; clap v2 does not surface subcommand
  arguments in the top-level matches, so that lookup is `None` on every
  startup, which `valueOfAddress` models.
-/

/-- JSON values, mirroring `serde_json::Value` with the integer/float
distinction of its `Number` type made explicit. -/
inductive Json where
  | null : Json
  | bool (b : Bool) : Json
  | int (n : Int) : Json
  | float (q : ℚ) : Json
  | str (s : String) : Json
  | arr (xs : List Json) : Json
  | obj (fs : List (String × Json)) : Json

/-- First-occurrence field lookup in a JSON object's field list. -/
def lookupField (fs : List (String × Json)) (k : String) : Option Json :=
  match fs with
  | [] => none
  | (k', v) :: rest => if k' = k then some v else lookupField rest k

/-- Whether key `k` occurs at least twice in the field list: serde's
streaming map access errors with "duplicate field" when a known field is
seen a second time. -/
def lookupDup (fs : List (String × Json)) (k : String) : Bool :=
  match fs with
  | [] => false
  | (k', _) :: rest => if k' = k then (lookupField rest k).isSome else lookupDup rest k

/-- `serde_json::Value::index` followed by nothing: indexing a value with a
string key yields `Null` unless the value is an object containing the key. -/
def jsonGet (j : Json) (k : String) : Json :=
  match j with
  | .obj fs => (lookupField fs k).getD .null
  | _ => .null

/-- `Value::as_str`: `some` exactly on JSON strings. -/
def Json.asStr : Json → Option String
  | .str s => some s
  | _ => none

/-- `struct RngResponse { value: f64 }` from `src/main.rs`. -/
structure RngResponse where
  value : ℚ
deriving DecidableEq

/-- `std::ops::Range<i32>`, the flattened field of the `Uniform` variant;
its serde field names are `start` and `end`. -/
structure RngRange where
  start : Int
  end' : Int
deriving DecidableEq

/-- `enum RngRequest` from `src/main.rs`: adjacently tagged with
`tag = "distribution"`, `content = "parameters"`, lowercase variant names. -/
inductive RngRequest where
  | uniform (range : RngRange)
  | normal (mean std_dev : ℚ)
  | bernoulli (p : ℚ)
deriving DecidableEq

/-- Deserializing an `i32` from a JSON value (`serde_json`): only integer
numbers within the `i32` range are accepted; floats, strings, etc. fail. -/
def decodeI32 (j : Json) : Except String Int :=
  match j with
  | .int n =>
      if -(2 ^ 31) ≤ n ∧ n < 2 ^ 31 then .ok n
      else .error "invalid value: integer out of range of i32"
  | _ => .error "invalid type: expected i32"

/-- Deserializing an `f64` from a JSON value (`serde_json`): both integer
and floating-point numbers are accepted. -/
def decodeF64 (j : Json) : Except String ℚ :=
  match j with
  | .int n => .ok (n : ℚ)
  | .float q => .ok q
  | _ => .error "invalid type: expected f64"

/-- Decoding the `parameters` content of the `Uniform` variant: the
flattened `Range<i32>` buffers and replays a map (flatten does not accept
the seq form), needing integer fields `start` and `end`; unknown fields
are ignored, duplicated known fields error. -/
def decodeUniform (params : Json) : Except String RngRequest :=
  match params with
  | .obj ps =>
      if lookupDup ps "start" then .error "duplicate field start"
      else if lookupDup ps "end" then .error "duplicate field end"
      else
        match lookupField ps "start" with
        | none => .error "missing field start"
        | some js =>
            match lookupField ps "end" with
            | none => .error "missing field end"
            | some je =>
                match decodeI32 js with
                | .error e => .error e
                | .ok s =>
                    match decodeI32 je with
                    | .error e => .error e
                    | .ok e => .ok (.uniform ⟨s, e⟩)
  | _ => .error "invalid type: expected map for Uniform parameters"

/-- Decoding the `parameters` content of the `Normal` variant: a map with
`f64` fields `mean` and `std_dev` (unknown fields ignored, duplicates
error), or — serde_json's struct-from-seq — an array of exactly the two
fields in declaration order. -/
def decodeNormal (params : Json) : Except String RngRequest :=
  match params with
  | .obj ps =>
      if lookupDup ps "mean" then .error "duplicate field mean"
      else if lookupDup ps "std_dev" then .error "duplicate field std_dev"
      else
        match lookupField ps "mean" with
        | none => .error "missing field mean"
        | some jm =>
            match lookupField ps "std_dev" with
            | none => .error "missing field std_dev"
            | some js =>
                match decodeF64 jm with
                | .error e => .error e
                | .ok m =>
                    match decodeF64 js with
                    | .error e => .error e
                    | .ok s => .ok (.normal m s)
  | .arr [jm, js] =>
      match decodeF64 jm with
      | .error e => .error e
      | .ok m =>
          match decodeF64 js with
          | .error e => .error e
          | .ok s => .ok (.normal m s)
  | .arr _ => .error "invalid length, expected struct variant Normal with 2 elements"
  | _ => .error "invalid type: expected struct variant Normal"

/-- Decoding the `parameters` content of the `Bernoulli` variant: a map
with an `f64` field `p` (unknown fields ignored, duplicates error), or an
array of exactly that one field. -/
def decodeBernoulli (params : Json) : Except String RngRequest :=
  match params with
  | .obj ps =>
      if lookupDup ps "p" then .error "duplicate field p"
      else
        match lookupField ps "p" with
        | none => .error "missing field p"
        | some jp =>
            match decodeF64 jp with
            | .error e => .error e
            | .ok p => .ok (.bernoulli p)
  | .arr [jp] =>
      match decodeF64 jp with
      | .error e => .error e
      | .ok p => .ok (.bernoulli p)
  | .arr _ => .error "invalid length, expected struct variant Bernoulli with 1 element"
  | _ => .error "invalid type: expected struct variant Bernoulli"

/-- The common tail of both adjacently tagged forms: the tag value must be
a string naming one of the variants `"uniform"`, `"normal"`, `"bernoulli"`
(the unknown-variant check happens when the tag is read), and the content,
when present, is decoded per the selected variant. -/
def decodeTagged (tagJ : Json) (paramsOpt : Option Json) : Except String RngRequest :=
  match tagJ with
  | .str tag =>
      if tag = "uniform" ∨ tag = "normal" ∨ tag = "bernoulli" then
        match paramsOpt with
        | none => .error "missing field parameters"
        | some params =>
            if tag = "uniform" then decodeUniform params
            else if tag = "normal" then decodeNormal params
            else decodeBernoulli params
      else .error ("unknown variant " ++ tag)
  | _ => .error "invalid type: distribution tag must be a string"

/-- The derived `Deserialize` of `RngRequest`: an adjacently tagged enum,
decoded either from a map with tag field `distribution` and content field
`parameters` (other fields ignored, duplicated tag/content fields error),
or — the derived visitor's seq form — from a two-element `[tag, content]`
array (any other length errors). -/
def decodeRngRequest (v : Json) : Except String RngRequest :=
  match v with
  | .obj fs =>
      if lookupDup fs "distribution" then .error "duplicate field distribution"
      else if lookupDup fs "parameters" then .error "duplicate field parameters"
      else
        match lookupField fs "distribution" with
        | none => .error "missing field distribution"
        | some tagJ => decodeTagged tagJ (lookupField fs "parameters")
  | .arr [tagJ, params] => decodeTagged tagJ (some params)
  | .arr _ => .error "invalid length, expected adjacently tagged enum RngRequest"
  | _ => .error "invalid type: expected adjacently tagged enum RngRequest"

/-- `serde_json::from_slice::<RngRequest>` on the buffered body: a buffer
that is not well-formed JSON text is `none` and fails; otherwise the value
is decoded as `RngRequest`. -/
def decodeBody (body : Option Json) : Except String RngRequest :=
  match body with
  | none => .error "invalid JSON in request body"
  | some v => decodeRngRequest v

/-- Thread-local RNG state for one draw: `word` feeds the integer/boolean
draws (a 64-bit draw is `word % 2^64`), `gauss` is the standard normal
draw used by the ziggurat sampler of the `Normal` arm. -/
structure RngState where
  word : Nat
  gauss : ℚ

/-- Model of sampling `rand::distributions::Uniform::from(low..high)` for
`i32`: the raw word is reduced into the half-open range `[low, high)`.
(rand uses widening multiply with rejection; any reduction of a raw word
into the range models the in-range guarantee.) Only meaningful when
`low < high`; the constructor's assertion is modelled in `handle_request`. -/
def uniformSample (low high : Int) (w : Nat) : Int :=
  low + ((w % (high - low).toNat : Nat) : Int)

/-- Model of sampling `rand::distributions::Bernoulli::new(p)`: a 64-bit
draw compared against the scaled probability; the draw is `true` with
probability `p`, never for `p = 0` and always for `p = 1`. -/
def bernoulliSample (p : ℚ) (w : Nat) : Bool :=
  decide (((w % 2 ^ 64 : Nat) : ℚ) < p * 2 ^ 64)

/-- `fn serialize(format, resp)` from `src/main.rs`: only `"json"` is
recognized, rendering `{"value": <float>}` (modelled at the value level);
any other format fails with `format_err!("unsupported format {}", format)`. -/
def serialize (format : String) (resp : RngResponse) : Except String Json :=
  if format = "json" then .ok (.obj [("value", .float resp.value)])
  else .error ("unsupported format " ++ format)

/-- `fn handle_request(request)` from `src/main.rs`. The `rand`
constructors assert their parameter ranges (`Uniform::new` requires
`low < high`, `Bernoulli::new` requires `0 ≤ p ≤ 1`); a failed assertion
is a panic, modelled as `none`. `Normal::new` performs no check. The
Bernoulli boolean is cast `as i8 as f64`, i.e. `1.0` / `0.0`. -/
def handle_request (request : RngRequest) (rng : RngState) : Option RngResponse :=
  match request with
  | .uniform range =>
      if range.start < range.end' then
        some ⟨((uniformSample range.start range.end' rng.word : Int) : ℚ)⟩
      else none
  | .normal mean std_dev => some ⟨mean + std_dev * rng.gauss⟩
  | .bernoulli p =>
      if 0 ≤ p ∧ p ≤ 1 then
        some ⟨if bernoulliSample p rng.word then 1 else 0⟩
      else none

/-- Response bodies: `json` for the serialized success buffer, `text` for
plain-text error and not-found bodies. -/
inductive RespBody where
  | json (v : Json)
  | text (s : String)

/-- An HTTP response: status code and body. -/
structure HttpResponse where
  status : Nat
  body : RespBody

/-- An inbound HTTP request as `microservice_handler` observes it:
method and path strings, the `queryst::parse` result of the query string
(`none` models absent or unparseable), and the JSON text-parse result of
the fully buffered body (`none` models malformed JSON text). -/
structure HttpRequest where
  method : String
  path : String
  query : Option Json
  body : Option Json

/-- The `format` extraction of `microservice_handler`:
`queryst::parse(uri).unwrap_or(Value::Null)`, then
`query["format"].as_str().unwrap_or("json")`. -/
def resolveFormat (query : Option Json) : String :=
  ((jsonGet (query.getD .null) "format").asStr).getD "json"

/-- `fn microservice_handler(req)` from `src/main.rs`: `POST /random`
resolves the format, buffers and decodes the body, samples, serializes,
and maps any decode or serialize failure to `422` with the error text;
every other method/path pair gets `404 Not Found`. A panic inside
`handle_request` (degenerate distribution parameters) is `none`. -/
def microservice_handler (req : HttpRequest) (rng : RngState) : Option HttpResponse :=
  if req.method = "POST" ∧ req.path = "/random" then
    let format := resolveFormat req.query
    match decodeBody req.body with
    | .error e => some ⟨422, .text e⟩
    | .ok r =>
        match handle_request r rng with
        | none => none
        | some resp =>
            match serialize format resp with
            | .ok j => some ⟨200, .json j⟩
            | .error e => some ⟨422, .text e⟩
  else
    some ⟨404, .text "Not Found"⟩

/-- A socket address: four IPv4 octets and a port. (IPv6 literal forms of
`std::net::SocketAddr` are not modelled; no claim exercises them.) -/
structure SocketAddr where
  ip : Nat × Nat × Nat × Nat
  port : Nat
deriving DecidableEq

/-- Splitting a character list on a separator (the groups between
occurrences of `sep`, in order; `n` separators give `n + 1` groups). -/
def splitOn (sep : Char) (cs : List Char) : List (List Char) :=
  match cs with
  | [] => [[]]
  | c :: rest =>
      let r := splitOn sep rest
      if c = sep then [] :: r
      else
        match r with
        | [] => [[c]]
        | g :: gs => (c :: g) :: gs

/-- Strict decimal naturals as Rust's address parser accepts them:
non-empty, digits only, no leading zero (except `"0"` itself). -/
def parseNatStrict (cs : List Char) : Option Nat :=
  if cs ≠ [] ∧ cs.all (·.isDigit) ∧ (cs.head? = some '0' → cs.length = 1) then
    some (cs.foldl (fun n c => n * 10 + (c.toNat - 48)) 0)
  else none

/-- Parsing a dotted-quad IPv4 literal. -/
def parseIpv4 (cs : List Char) : Option (Nat × Nat × Nat × Nat) :=
  match splitOn '.' cs with
  | [a, b, c, d] =>
      match parseNatStrict a, parseNatStrict b, parseNatStrict c, parseNatStrict d with
      | some a', some b', some c', some d' =>
          if a' ≤ 255 ∧ b' ≤ 255 ∧ c' ≤ 255 ∧ d' ≤ 255 then some (a', b', c', d')
          else none
      | _, _, _, _ => none
  | _ => none

/-- `str::parse::<SocketAddr>` on a `host:port` string (IPv4 form). -/
def parseSocketAddr (s : String) : Option SocketAddr :=
  match splitOn ':' s.data with
  | [h, p] =>
      match parseIpv4 h, parseNatStrict p with
      | some ip, some port => if port ≤ 65535 then some ⟨ip, port⟩ else none
      | _, _ => none
  | _ => none

/-- `struct Config { address: SocketAddr }`: the `microservice.toml`
contents, already parsed (an unreadable or unparseable file is `none` at
the call site in `main`). -/
structure Config where
  address : SocketAddr

/-- The hard-coded default `([127, 0, 0, 1], 8080).into()`. -/
def defaultAddr : SocketAddr := ⟨(127, 0, 0, 1), 8080⟩

/-- Model of `matches.value_of("address")` in `main`: the `address`
argument (`-a`/`--address`) is declared on the `run` subcommand, and clap
v2 surfaces subcommand-scoped arguments only through
`subcommand_matches("run")`, never through the top-level matches, so this
top-level lookup is `None` on every startup, whatever `--address` value
the user gave to `run` (`cliFlag`). -/
def valueOfAddress (_cliFlag : Option String) : Option String := none

/-- The address-resolution chain of `fn main` from `src/main.rs`:
`matches.value_of("address").map(to_owned).or(env::var("ADDRESS").ok())
.and_then(|addr| addr.parse().ok()).or(config.map(|c| c.address))
.or_else(|| Some(default)).unwrap()`, with the top-level `value_of`
modelled by `valueOfAddress` (always `None`); `cliFlag` is the
`--address` value the user passed to the `run` subcommand. -/
def resolveAddress (cliFlag envAddr : Option String) (config : Option Config) : SocketAddr :=
  (((valueOfAddress cliFlag <|> envAddr).bind parseSocketAddr) <|>
    config.map Config.address).getD defaultAddr

/-- The body of a well-formed uniform request,
`{"distribution":"uniform","parameters":{"start":low,"end":high}}`. -/
def uniformDoc (low high : Int) : Json :=
  .obj [("distribution", .str "uniform"),
        ("parameters", .obj [("start", .int low), ("end", .int high)])]

/-- The body of a well-formed bernoulli request,
`{"distribution":"bernoulli","parameters":{"p":p}}`. -/
def bernoulliDoc (p : ℚ) : Json :=
  .obj [("distribution", .str "bernoulli"), ("parameters", .obj [("p", .float p)])]

/-- The raw 64-bit Bernoulli draw compared against `p = 0` never succeeds. -/
theorem bernoulliSample_zero (w : Nat) : bernoulliSample 0 w = false := by
  simp only [bernoulliSample, decide_eq_false_iff_not, not_lt, zero_mul]
  exact_mod_cast Nat.zero_le _

/-- The raw 64-bit Bernoulli draw compared against `p = 1` always succeeds. -/
theorem bernoulliSample_one (w : Nat) : bernoulliSample 1 w = true := by
  have h : w % 2 ^ 64 < 2 ^ 64 := Nat.mod_lt _ (by norm_num)
  simp only [bernoulliSample, decide_eq_true_eq, one_mul]
  exact_mod_cast h

/-- The reduced uniform draw lies in the half-open range. -/
theorem uniformSample_mem (low high : Int) (w : Nat) (h : low < high) :
    low ≤ uniformSample low high w ∧ uniformSample low high w < high := by
  unfold uniformSample
  have ht : 0 < (high - low).toNat := by omega
  have hm : w % (high - low).toNat < (high - low).toNat := Nat.mod_lt _ ht
  omega

/-- C1 (code bug): the CLI declares `-a`/`--address` on the `run`
subcommand with help "address of the server", and the spec gives the flag
top priority, but `main` reads the flag through the top-level matches,
which clap v2 leaves empty for subcommand-scoped arguments. At the failing
startup `run -a 127.0.0.1:9000` with `ADDRESS=10.0.0.1:7777` and no config
file, the parseable flag is ignored and the env var wins, contradicting
the claimed flag > environment priority. -/
theorem flag_ignored_env_wins :
    valueOfAddress (some "127.0.0.1:9000") = none ∧
    resolveAddress (some "127.0.0.1:9000") (some "10.0.0.1:7777") none =
      ⟨(10, 0, 0, 1), 7777⟩ ∧
    ¬ (resolveAddress (some "127.0.0.1:9000") (some "10.0.0.1:7777") none =
        ⟨(127, 0, 0, 1), 9000⟩) :=
  ⟨rfl, by decide, by decide⟩

/-- C6: a source that is present but unparseable never short-circuits the
chain and never aborts startup: an unparseable `--address` flag leaves the
chain at the environment variable (the flag slot contributes nothing, so
resolution behaves exactly as with no flag: a valid env var is used, an
invalid one falls to the config file and then the default). -/
theorem invalid_source_falls_through :
    ∀ (s : String) (envAddr : Option String) (config : Option Config),
      parseSocketAddr s = none →
      (resolveAddress (some s) envAddr config = resolveAddress none envAddr config) ∧
      (∀ t a, envAddr = some t → parseSocketAddr t = some a →
        resolveAddress (some s) envAddr config = a) ∧
      (∀ t, envAddr = some t → parseSocketAddr t = none →
        resolveAddress (some s) envAddr config =
          (config.map Config.address).getD defaultAddr) := by
  intro s envAddr config hs
  refine ⟨rfl, ?_, ?_⟩
  · intro t a ht hp
    subst ht
    simp [resolveAddress, valueOfAddress, hp]
  · intro t ht hp
    subst ht
    simp [resolveAddress, valueOfAddress, hp]

/-- C6 witness: with the flag set to an unparseable string, a valid env
var is used, and an unparseable env var falls through to the config file's
address. -/
theorem invalid_source_falls_through_witness :
    resolveAddress (some "bogus") (some "10.0.0.1:7777") none = ⟨(10, 0, 0, 1), 7777⟩ ∧
    resolveAddress (some "bogus") (some "nonsense") (some ⟨⟨(192, 168, 0, 1), 3000⟩⟩) =
      ⟨(192, 168, 0, 1), 3000⟩ :=
  ⟨(invalid_source_falls_through "bogus" (some "10.0.0.1:7777") none (by decide)).2.1
      "10.0.0.1:7777" ⟨(10, 0, 0, 1), 7777⟩ rfl (by decide),
   (invalid_source_falls_through "bogus" (some "nonsense")
      (some ⟨⟨(192, 168, 0, 1), 3000⟩⟩) (by decide)).2.2 "nonsense" rfl (by decide)⟩

/-- C8: when neither the flag nor the env var parses as an address (each is
absent or unparseable) and there is no config file value, the effective
address is exactly `127.0.0.1:8080`; the final step is the total `getD`
of a constant, so it cannot fail. -/
theorem default_fallback :
    ∀ (flag envAddr : Option String),
      (∀ s, flag = some s → parseSocketAddr s = none) →
      (∀ s, envAddr = some s → parseSocketAddr s = none) →
      resolveAddress flag envAddr none = ⟨(127, 0, 0, 1), 8080⟩ := by
  intro flag envAddr hflag henv
  cases envAddr with
  | some s => simp [resolveAddress, valueOfAddress, henv s rfl, defaultAddr]
  | none => simp [resolveAddress, valueOfAddress, defaultAddr]

/-- C8 witness: two unparseable sources and no file give the default. -/
theorem default_fallback_witness :
    resolveAddress (some "nonsense") (some "also:not:an:addr") none =
      ⟨(127, 0, 0, 1), 8080⟩ :=
  default_fallback (some "nonsense") (some "also:not:an:addr")
    (fun s hs => by cases hs; decide) (fun s hs => by cases hs; decide)

/-- C3: any (method, path) pair other than (POST, "/random") yields status
404 with the exact plain-text body "Not Found"; the response is the same
for every request body and query (both are universally quantified), so the
body is never inspected. -/
theorem not_found_for_unmatched :
    ∀ (m p : String) (q body : Option Json) (rng : RngState),
      ¬ (m = "POST" ∧ p = "/random") →
      microservice_handler ⟨m, p, q, body⟩ rng = some ⟨404, .text "Not Found"⟩ := by
  intro m p q b rng h
  simp [microservice_handler, h]

/-- C3 witness: a GET to /random is 404 Not Found. -/
theorem not_found_for_unmatched_witness :
    microservice_handler ⟨"GET", "/random", none, none⟩ ⟨0, 0⟩ =
      some ⟨404, .text "Not Found"⟩ :=
  not_found_for_unmatched "GET" "/random" none none ⟨0, 0⟩ (by decide)

/-- C7: the output encoding comes from the `format` key of the parsed query
string; it is `"json"` when the query string is absent or unparseable
(the `queryst` result is `Null`), or when the key is missing or not a
string; a malformed query string behaves exactly like the `Null` query
value, so by itself it never changes the handler's outcome. -/
theorem format_from_query :
    resolveFormat none = "json" ∧
    (∀ j : Json, (jsonGet j "format").asStr = none → resolveFormat (some j) = "json") ∧
    (∀ (fs : List (String × Json)) (f : String),
      lookupField fs "format" = some (.str f) → resolveFormat (some (.obj fs)) = f) ∧
    (∀ (body : Option Json) (rng : RngState),
      microservice_handler ⟨"POST", "/random", none, body⟩ rng =
        microservice_handler ⟨"POST", "/random", some .null, body⟩ rng) := by
  refine ⟨rfl, ?_, ?_, fun body rng => rfl⟩
  · intro j h
    simp [resolveFormat, h]
  · intro fs f h
    simp [resolveFormat, jsonGet, h, Json.asStr]

/-- C7 witness: a query parsed to an object with a string `format` key
resolves to that string. -/
theorem format_from_query_witness :
    resolveFormat (some (.obj [("format", Json.str "xml")])) = "xml" :=
  format_from_query.2.2.1 [("format", Json.str "xml")] "xml" (by rfl)

/-- C9: for every RNG state, sampling Bernoulli with p = 0 yields 0.0 and
sampling Bernoulli with p = 1 yields 1.0. -/
theorem bernoulli_extremes :
    ∀ rng : RngState,
      handle_request (.bernoulli 0) rng = some ⟨0⟩ ∧
      handle_request (.bernoulli 1) rng = some ⟨1⟩ := by
  intro rng
  constructor
  · simp [handle_request, bernoulliSample_zero]
  · simp [handle_request, bernoulliSample_one]

/-- A well-formed uniform body decodes to the `Uniform` variant whenever
both bounds fit in `i32`; no low/high order check is performed. -/
theorem decodeBody_uniformDoc (low high : Int)
    (h1 : -(2 ^ 31) ≤ low) (h2 : low < 2 ^ 31) (h3 : -(2 ^ 31) ≤ high) (h4 : high < 2 ^ 31) :
    decodeBody (some (uniformDoc low high)) = .ok (.uniform ⟨low, high⟩) := by
  have hl : -2147483648 ≤ low ∧ low < 2147483648 := by omega
  have hh : -2147483648 ≤ high ∧ high < 2147483648 := by omega
  simp [decodeBody, decodeRngRequest, decodeTagged, uniformDoc, lookupField, lookupDup,
    decodeUniform, decodeI32]
  rw [if_pos hl, if_pos hh]

/-- A well-formed bernoulli body decodes to the `Bernoulli` variant for any
`p`; no range check on `p` is performed. -/
theorem decodeBody_bernoulliDoc (p : ℚ) :
    decodeBody (some (bernoulliDoc p)) = .ok (.bernoulli p) := by
  simp [decodeBody, decodeRngRequest, decodeTagged, bernoulliDoc, lookupField, lookupDup,
    decodeBernoulli, decodeF64]

/-- C2: a POST /random with a well-formed uniform body, i32 bounds
`low < high`, and a format resolving to "json" gets status 200 with body
`{"value": v}` where `v` is the sampled integer widened to float and
`low ≤ v < high`. -/
theorem uniform_request_success :
    ∀ (low high : Int) (q : Option Json) (rng : RngState),
      -(2 ^ 31) ≤ low → low < 2 ^ 31 → -(2 ^ 31) ≤ high → high < 2 ^ 31 →
      low < high → resolveFormat q = "json" →
      ∃ v : Int,
        microservice_handler ⟨"POST", "/random", q, some (uniformDoc low high)⟩ rng =
          some ⟨200, .json (.obj [("value", .float (v : ℚ))])⟩ ∧
        low ≤ v ∧ v < high := by
  intro low high q rng h1 h2 h3 h4 h5 hq
  refine ⟨uniformSample low high rng.word, ?_,
    (uniformSample_mem low high rng.word h5).1, (uniformSample_mem low high rng.word h5).2⟩
  simp [microservice_handler, decodeBody_uniformDoc low high h1 h2 h3 h4,
    handle_request, h5, hq, serialize]

/-- C2 witness: `{"start":1,"end":10}` with no query string gets a 200 with
a value in [1, 10). -/
theorem uniform_request_success_witness :
    ∃ v : Int,
      microservice_handler ⟨"POST", "/random", none, some (uniformDoc 1 10)⟩ ⟨3, 0⟩ =
        some ⟨200, .json (.obj [("value", .float (v : ℚ))])⟩ ∧
      1 ≤ v ∧ v < 10 :=
  uniform_request_success 1 10 none ⟨3, 0⟩ (by decide) (by decide) (by decide) (by decide)
    (by decide) (by rfl)

/-- C5: the serializer recognizes only "json", rendering `{"value": v}`;
every other format fails with a message carrying the rejected name, and the
handler maps that failure to 422 with a plain-text body containing the
unsupported format. -/
theorem serializer_json_only :
    (∀ resp : RngResponse, serialize "json" resp = .ok (.obj [("value", .float resp.value)])) ∧
    (∀ (f : String) (resp : RngResponse), f ≠ "json" →
      serialize f resp = .error ("unsupported format " ++ f)) ∧
    (∀ (f : String) (low high : Int) (q : Option Json) (rng : RngState),
      -(2 ^ 31) ≤ low → low < 2 ^ 31 → -(2 ^ 31) ≤ high → high < 2 ^ 31 → low < high →
      resolveFormat q = f → f ≠ "json" →
      ∃ s₁ s₂ : String,
        microservice_handler ⟨"POST", "/random", q, some (uniformDoc low high)⟩ rng =
          some ⟨422, .text (s₁ ++ f ++ s₂)⟩) := by
  refine ⟨fun resp => rfl, ?_, ?_⟩
  · intro f resp hf
    simp [serialize, hf]
  · intro f low high q rng h1 h2 h3 h4 h5 hq hf
    refine ⟨"unsupported format ", "", ?_⟩
    simp [microservice_handler, decodeBody_uniformDoc low high h1 h2 h3 h4,
      handle_request, h5, hq, serialize, hf]

/-- C5 witness: `format=xml` on a valid uniform body gives a 422 whose body
mentions "xml". -/
theorem serializer_json_only_witness :
    serialize "json" ⟨3⟩ = .ok (.obj [("value", .float 3)]) ∧
    serialize "xml" ⟨3⟩ = .error "unsupported format xml" ∧
    (∃ s₁ s₂ : String,
      microservice_handler ⟨"POST", "/random", some (.obj [("format", Json.str "xml")]),
          some (uniformDoc 1 10)⟩ ⟨3, 0⟩ =
        some ⟨422, .text (s₁ ++ "xml" ++ s₂)⟩) :=
  ⟨serializer_json_only.1 ⟨3⟩,
   serializer_json_only.2.1 "xml" ⟨3⟩ (by decide),
   serializer_json_only.2.2 "xml" 1 10 (some (.obj [("format", Json.str "xml")])) ⟨3, 0⟩
     (by decide) (by decide) (by decide) (by decide) (by decide) (by rfl) (by decide)⟩

/-- C10: a syntactically valid Uniform body with `start ≥ end` and a
syntactically valid Bernoulli body with `p` outside [0, 1] pass the parser,
but the rand distribution constructor's assertion fails (a panic, modelled
as `none`), so neither a 200 nor a 422 response is produced. -/
theorem degenerate_parameters_panic :
    ∀ (low high : Int) (p : ℚ) (q : Option Json) (rng : RngState),
      -(2 ^ 31) ≤ low → low < 2 ^ 31 → -(2 ^ 31) ≤ high → high < 2 ^ 31 →
      high ≤ low → (p < 0 ∨ 1 < p) →
      decodeBody (some (uniformDoc low high)) = .ok (.uniform ⟨low, high⟩) ∧
      microservice_handler ⟨"POST", "/random", q, some (uniformDoc low high)⟩ rng = none ∧
      decodeBody (some (bernoulliDoc p)) = .ok (.bernoulli p) ∧
      microservice_handler ⟨"POST", "/random", q, some (bernoulliDoc p)⟩ rng = none := by
  intro low high p q rng h1 h2 h3 h4 h5 h6
  have hns : ¬ (low < high) := by omega
  have hnp : ¬ (0 ≤ p ∧ p ≤ 1) := by
    rcases h6 with h | h
    · exact fun hc => absurd hc.1 (not_le.mpr h)
    · exact fun hc => absurd hc.2 (not_le.mpr h)
  refine ⟨decodeBody_uniformDoc low high h1 h2 h3 h4, ?_, decodeBody_bernoulliDoc p, ?_⟩
  · simp [microservice_handler, decodeBody_uniformDoc low high h1 h2 h3 h4,
      handle_request, hns]
  · simp [microservice_handler, decodeBody_bernoulliDoc p, handle_request, hnp]

/-- C10 witness: `start=5, end=1` and `p=2` both decode but produce no
response at all. -/
theorem degenerate_parameters_panic_witness :
    decodeBody (some (uniformDoc 5 1)) = .ok (.uniform ⟨5, 1⟩) ∧
    microservice_handler ⟨"POST", "/random", none, some (uniformDoc 5 1)⟩ ⟨3, 0⟩ = none ∧
    decodeBody (some (bernoulliDoc 2)) = .ok (.bernoulli 2) ∧
    microservice_handler ⟨"POST", "/random", none, some (bernoulliDoc 2)⟩ ⟨3, 0⟩ = none :=
  degenerate_parameters_panic 5 1 2 none ⟨3, 0⟩ (by decide) (by decide) (by decide)
    (by decide) (by decide) (Or.inr (by norm_num))

/-- Spec-side: a JSON value acceptable for an `i32` field. -/
def IsI32 (j : Json) : Prop := ∃ n : Int, j = .int n ∧ -(2 ^ 31) ≤ n ∧ n < 2 ^ 31

/-- Spec-side: a JSON value acceptable for an `f64` field. -/
def IsF64 (j : Json) : Prop := (∃ n : Int, j = .int n) ∨ (∃ q : ℚ, j = .float q)

/-- Spec-side: the object has field `k` and its value satisfies `P`. -/
def HasTypedField (ps : List (String × Json)) (k : String) (P : Json → Prop) : Prop :=
  ∃ j, lookupField ps k = some j ∧ P j

/-- The claim's taxonomy: valid `parameters` for the `uniform` tag
(object form only, duplicates not considered). -/
def UniformParamsOk (params : Json) : Prop :=
  ∃ ps, params = .obj ps ∧ HasTypedField ps "start" IsI32 ∧ HasTypedField ps "end" IsI32

/-- The claim's taxonomy: valid `parameters` for the `normal` tag
(object form only, duplicates not considered). -/
def NormalParamsOk (params : Json) : Prop :=
  ∃ ps, params = .obj ps ∧ HasTypedField ps "mean" IsF64 ∧ HasTypedField ps "std_dev" IsF64

/-- The claim's taxonomy: valid `parameters` for the `bernoulli` tag
(object form only, duplicates not considered). -/
def BernoulliParamsOk (params : Json) : Prop :=
  ∃ ps, params = .obj ps ∧ HasTypedField ps "p" IsF64

/-- The decode-failure taxonomy exactly as the claim states it: the body
is well-formed JSON, it is an object whose `distribution` field is one of
the three recognized tags, and the `parameters` field carries the selected
variant's required, well-typed fields. (This is the claim side of C4; the
program's decoder also accepts serde's seq forms and rejects duplicated
fields, which this predicate does not express.) -/
def WellFormedRngDoc (body : Option Json) : Prop :=
  ∃ fs, body = some (.obj fs) ∧
    ∃ tag, lookupField fs "distribution" = some (.str tag) ∧
      ∃ params, lookupField fs "parameters" = some params ∧
        ((tag = "uniform" ∧ UniformParamsOk params) ∨
         (tag = "normal" ∧ NormalParamsOk params) ∨
         (tag = "bernoulli" ∧ BernoulliParamsOk params))

/-- Amended spec-side: valid `parameters` for the `uniform` tag — the
flattened range accepts only the object form, with `start`/`end` present,
in range, and not duplicated. -/
def UniformParamsFull (params : Json) : Prop :=
  ∃ ps, params = .obj ps ∧ lookupDup ps "start" = false ∧ lookupDup ps "end" = false ∧
    HasTypedField ps "start" IsI32 ∧ HasTypedField ps "end" IsI32

/-- Amended spec-side: valid `parameters` for the `normal` tag — an object
with non-duplicated `mean`/`std_dev` numbers, or serde_json's seq form, an
array of exactly the two fields in declaration order. -/
def NormalParamsFull (params : Json) : Prop :=
  (∃ ps, params = .obj ps ∧ lookupDup ps "mean" = false ∧ lookupDup ps "std_dev" = false ∧
    HasTypedField ps "mean" IsF64 ∧ HasTypedField ps "std_dev" IsF64) ∨
  (∃ jm js, params = .arr [jm, js] ∧ IsF64 jm ∧ IsF64 js)

/-- Amended spec-side: valid `parameters` for the `bernoulli` tag — an
object with a non-duplicated `p` number, or an array of exactly that
field. -/
def BernoulliParamsFull (params : Json) : Prop :=
  (∃ ps, params = .obj ps ∧ lookupDup ps "p" = false ∧ HasTypedField ps "p" IsF64) ∨
  (∃ jp, params = .arr [jp] ∧ IsF64 jp)

/-- Amended spec-side: the tag string selects a variant whose parameters
are valid. -/
def TagSelects (tag : String) (params : Json) : Prop :=
  (tag = "uniform" ∧ UniformParamsFull params) ∨
  (tag = "normal" ∧ NormalParamsFull params) ∨
  (tag = "bernoulli" ∧ BernoulliParamsFull params)

/-- Amended spec-side well-formedness of a request body: well-formed JSON
in one of serde's two adjacently tagged shapes — an object with
non-duplicated `distribution`/`parameters` fields, or a two-element
`[tag, content]` array — whose tag is recognized and whose parameters are
valid for the selected variant. Range conditions (such as `start < end`)
are deliberately absent. -/
def WellFormedRngDocFull (body : Option Json) : Prop :=
  (∃ fs, body = some (.obj fs) ∧
    lookupDup fs "distribution" = false ∧ lookupDup fs "parameters" = false ∧
    ∃ tag, lookupField fs "distribution" = some (.str tag) ∧
      ∃ params, lookupField fs "parameters" = some params ∧ TagSelects tag params) ∨
  (∃ tag params, body = some (.arr [.str tag, params]) ∧ TagSelects tag params)

/-- `i32` field decoding succeeds exactly on in-range integer numbers. -/
theorem decodeI32_ok_iff (j : Json) : (∃ n, decodeI32 j = .ok n) ↔ IsI32 j := by
  cases j <;> simp [decodeI32, IsI32]
  rename_i n
  by_cases h : -2147483648 ≤ n ∧ n < 2147483648
  · simp [h]
  · simp [h]

/-- `f64` field decoding succeeds exactly on numbers. -/
theorem decodeF64_ok_iff (j : Json) : (∃ q, decodeF64 j = .ok q) ↔ IsF64 j := by
  cases j <;> simp [decodeF64, IsF64]

/-- Uniform parameter decoding succeeds exactly on valid parameter maps. -/
theorem decodeUniform_ok_iff (params : Json) :
    (∃ r, decodeUniform params = .ok r) ↔ UniformParamsFull params := by
  cases params <;> simp [decodeUniform, UniformParamsFull]
  rename_i ps
  cases hd1 : lookupDup ps "start" <;> simp [hd1]
  cases hd2 : lookupDup ps "end" <;> simp [hd2]
  cases hs : lookupField ps "start" with
  | none => simp [HasTypedField, hs]
  | some js =>
      cases he : lookupField ps "end" with
      | none => simp [HasTypedField, hs, he]
      | some je =>
          cases hjs : decodeI32 js with
          | error e =>
              have hni : ¬ IsI32 js := by rw [← decodeI32_ok_iff]; simp [hjs]
              simp [HasTypedField, hs, he, hjs, hni]
          | ok n =>
              have hi : IsI32 js := (decodeI32_ok_iff js).mp ⟨n, hjs⟩
              cases hje : decodeI32 je with
              | error e =>
                  have hni : ¬ IsI32 je := by rw [← decodeI32_ok_iff]; simp [hje]
                  simp [HasTypedField, hs, he, hjs, hje, hni]
              | ok m =>
                  have hi' : IsI32 je := (decodeI32_ok_iff je).mp ⟨m, hje⟩
                  simp [HasTypedField, hs, he, hjs, hje, hi, hi']

/-- Normal parameter decoding succeeds exactly on valid parameter maps or
two-element parameter arrays. -/
theorem decodeNormal_ok_iff (params : Json) :
    (∃ r, decodeNormal params = .ok r) ↔ NormalParamsFull params := by
  cases params <;> simp [decodeNormal, NormalParamsFull]
  case arr xs =>
      rcases xs with _ | ⟨jm, _ | ⟨js, _ | ⟨j3, rest⟩⟩⟩ <;> simp [decodeNormal]
      cases hjm : decodeF64 jm with
      | error e =>
          have hni : ¬ IsF64 jm := by rw [← decodeF64_ok_iff]; simp [hjm]
          simp [hjm, hni]
      | ok m =>
          have hi : IsF64 jm := (decodeF64_ok_iff jm).mp ⟨m, hjm⟩
          cases hjs : decodeF64 js with
          | error e =>
              have hni : ¬ IsF64 js := by rw [← decodeF64_ok_iff]; simp [hjs]
              simp [hjm, hjs, hni]
          | ok s =>
              have hi' : IsF64 js := (decodeF64_ok_iff js).mp ⟨s, hjs⟩
              simp [hjm, hjs]
              exact ⟨jm, js, ⟨rfl, rfl⟩, hi, hi'⟩
  case obj ps =>
      cases hd1 : lookupDup ps "mean" <;> simp [hd1]
      cases hd2 : lookupDup ps "std_dev" <;> simp [hd2]
      cases hm : lookupField ps "mean" with
      | none => simp [HasTypedField, hm]
      | some jm =>
          cases hs : lookupField ps "std_dev" with
          | none => simp [HasTypedField, hm, hs]
          | some js =>
              cases hjm : decodeF64 jm with
              | error e =>
                  have hni : ¬ IsF64 jm := by rw [← decodeF64_ok_iff]; simp [hjm]
                  simp [HasTypedField, hm, hs, hjm, hni]
              | ok m =>
                  have hi : IsF64 jm := (decodeF64_ok_iff jm).mp ⟨m, hjm⟩
                  cases hjs : decodeF64 js with
                  | error e =>
                      have hni : ¬ IsF64 js := by rw [← decodeF64_ok_iff]; simp [hjs]
                      simp [HasTypedField, hm, hs, hjm, hjs, hni]
                  | ok s =>
                      have hi' : IsF64 js := (decodeF64_ok_iff js).mp ⟨s, hjs⟩
                      simp [HasTypedField, hm, hs, hjm, hjs, hi, hi']

/-- Bernoulli parameter decoding succeeds exactly on valid parameter maps
or one-element parameter arrays. -/
theorem decodeBernoulli_ok_iff (params : Json) :
    (∃ r, decodeBernoulli params = .ok r) ↔ BernoulliParamsFull params := by
  cases params <;> simp [decodeBernoulli, BernoulliParamsFull]
  case arr xs =>
      rcases xs with _ | ⟨jp, _ | ⟨j2, rest⟩⟩ <;> simp [decodeBernoulli]
      cases hjp : decodeF64 jp with
      | error e =>
          have hni : ¬ IsF64 jp := by rw [← decodeF64_ok_iff]; simp [hjp]
          simp [hjp, hni]
      | ok p =>
          have hi : IsF64 jp := (decodeF64_ok_iff jp).mp ⟨p, hjp⟩
          simp [hjp, hi]
  case obj ps =>
      cases hd1 : lookupDup ps "p" <;> simp [hd1]
      cases hp : lookupField ps "p" with
      | none => simp [HasTypedField, hp]
      | some jp =>
          cases hjp : decodeF64 jp with
          | error e =>
              have hni : ¬ IsF64 jp := by rw [← decodeF64_ok_iff]; simp [hjp]
              simp [HasTypedField, hp, hjp, hni]
          | ok p =>
              have hi : IsF64 jp := (decodeF64_ok_iff jp).mp ⟨p, hjp⟩
              simp [HasTypedField, hp, hjp, hi]

/-- Tag-and-content decoding succeeds exactly when the tag is a recognized
string and the content is present and valid for the selected variant. -/
theorem decodeTagged_ok_iff (tagJ : Json) (paramsOpt : Option Json) :
    (∃ r, decodeTagged tagJ paramsOpt = .ok r) ↔
      (∃ tag, tagJ = .str tag ∧
        ∃ params, paramsOpt = some params ∧ TagSelects tag params) := by
  cases tagJ <;> simp [decodeTagged]
  rename_i tag
  by_cases ht : tag = "uniform" ∨ tag = "normal" ∨ tag = "bernoulli"
  · rw [if_pos ht]
    cases paramsOpt with
    | none => simp
    | some params =>
        rcases ht with h | h | h <;> subst h <;> simp [TagSelects]
        · exact decodeUniform_ok_iff params
        · exact decodeNormal_ok_iff params
        · exact decodeBernoulli_ok_iff params
  · rw [if_neg ht]
    push_neg at ht
    simp [TagSelects, ht.1, ht.2.1, ht.2.2]

/-- Body decoding succeeds exactly on well-formed request documents
(amended well-formedness, covering both adjacently tagged shapes and
duplicate-field rejection). -/
theorem decodeBody_ok_iff (body : Option Json) :
    (∃ r, decodeBody body = .ok r) ↔ WellFormedRngDocFull body := by
  cases body with
  | none => simp [decodeBody, WellFormedRngDocFull]
  | some v =>
      cases v
      case arr xs =>
          rcases xs with _ | ⟨tagJ, _ | ⟨params, _ | ⟨j3, rest⟩⟩⟩ <;>
            simp [decodeBody, decodeRngRequest, WellFormedRngDocFull]
          rw [decodeTagged_ok_iff]
          simp
          constructor
          · rintro ⟨tag, ht, hsel⟩
            exact ⟨tag, params, ⟨ht, rfl⟩, hsel⟩
          · rintro ⟨tag, params', ⟨ht, hp⟩, hsel⟩
            subst hp
            exact ⟨tag, ht, hsel⟩
      case obj fs =>
          simp [decodeBody, decodeRngRequest, WellFormedRngDocFull]
          cases hd1 : lookupDup fs "distribution" <;> simp [hd1]
          cases hd2 : lookupDup fs "parameters" <;> simp [hd2]
          cases hd : lookupField fs "distribution" with
          | none => simp [hd]
          | some tagJ =>
              rw [decodeTagged_ok_iff]
              simp [hd]
      all_goals simp [decodeBody, decodeRngRequest, WellFormedRngDocFull]

/-- Every `i32` decode error message is non-empty. -/
theorem decodeI32_error_nonempty (j : Json) (e : String) (h : decodeI32 j = .error e) :
    e ≠ "" := by
  intro hemp
  subst hemp
  cases j <;> simp [decodeI32] at h
  split at h <;> simp_all

/-- Every `f64` decode error message is non-empty. -/
theorem decodeF64_error_nonempty (j : Json) (e : String) (h : decodeF64 j = .error e) :
    e ≠ "" := by
  intro hemp
  subst hemp
  cases j <;> simp [decodeF64] at h

/-- Every Uniform parameter decode error message is non-empty. -/
theorem decodeUniform_error_nonempty (params : Json) (e : String)
    (h : decodeUniform params = .error e) : e ≠ "" := by
  intro hemp
  subst hemp
  cases params <;> simp [decodeUniform] at h
  rename_i ps
  cases hd1 : lookupDup ps "start" <;> simp [hd1] at h
  cases hd2 : lookupDup ps "end" <;> simp [hd2] at h
  cases hs : lookupField ps "start" <;> simp [hs] at h
  rename_i js
  cases he : lookupField ps "end" <;> simp [he] at h
  rename_i je
  cases hjs : decodeI32 js with
  | error e' =>
      simp [hjs] at h
      exact decodeI32_error_nonempty js e' hjs (by simp [h])
  | ok n =>
      simp [hjs] at h
      cases hje : decodeI32 je with
      | error e' =>
          simp [hje] at h
          exact decodeI32_error_nonempty je e' hje (by simp [h])
      | ok m => simp [hje] at h

/-- Every Normal parameter decode error message is non-empty. -/
theorem decodeNormal_error_nonempty (params : Json) (e : String)
    (h : decodeNormal params = .error e) : e ≠ "" := by
  intro hemp
  subst hemp
  cases params
  case arr xs =>
      rcases xs with _ | ⟨jm, _ | ⟨js, _ | ⟨j3, rest⟩⟩⟩ <;> simp [decodeNormal] at h
      cases hjm : decodeF64 jm with
      | error e' =>
          simp [hjm] at h
          exact decodeF64_error_nonempty jm e' hjm (by simp [h])
      | ok m =>
          simp [hjm] at h
          cases hjs : decodeF64 js with
          | error e' =>
              simp [hjs] at h
              exact decodeF64_error_nonempty js e' hjs (by simp [h])
          | ok s => simp [hjs] at h
  case obj ps =>
      simp [decodeNormal] at h
      cases hd1 : lookupDup ps "mean" <;> simp [hd1] at h
      cases hd2 : lookupDup ps "std_dev" <;> simp [hd2] at h
      cases hm : lookupField ps "mean" <;> simp [hm] at h
      rename_i jm
      cases hs : lookupField ps "std_dev" <;> simp [hs] at h
      rename_i js
      cases hjm : decodeF64 jm with
      | error e' =>
          simp [hjm] at h
          exact decodeF64_error_nonempty jm e' hjm (by simp [h])
      | ok m =>
          simp [hjm] at h
          cases hjs : decodeF64 js with
          | error e' =>
              simp [hjs] at h
              exact decodeF64_error_nonempty js e' hjs (by simp [h])
          | ok s => simp [hjs] at h
  all_goals simp [decodeNormal] at h

/-- Every Bernoulli parameter decode error message is non-empty. -/
theorem decodeBernoulli_error_nonempty (params : Json) (e : String)
    (h : decodeBernoulli params = .error e) : e ≠ "" := by
  intro hemp
  subst hemp
  cases params
  case arr xs =>
      rcases xs with _ | ⟨jp, _ | ⟨j2, rest⟩⟩ <;> simp [decodeBernoulli] at h
      cases hjp : decodeF64 jp with
      | error e' =>
          simp [hjp] at h
          exact decodeF64_error_nonempty jp e' hjp (by simp [h])
      | ok p => simp [hjp] at h
  case obj ps =>
      simp [decodeBernoulli] at h
      cases hd1 : lookupDup ps "p" <;> simp [hd1] at h
      cases hp : lookupField ps "p" <;> simp [hp] at h
      rename_i jp
      cases hjp : decodeF64 jp with
      | error e' =>
          simp [hjp] at h
          exact decodeF64_error_nonempty jp e' hjp (by simp [h])
      | ok p => simp [hjp] at h
  all_goals simp [decodeBernoulli] at h

/-- Every tag-and-content decode error message is non-empty. -/
theorem decodeTagged_error_nonempty (tagJ : Json) (paramsOpt : Option Json) (e : String)
    (h : decodeTagged tagJ paramsOpt = .error e) : e ≠ "" := by
  intro hemp
  subst hemp
  cases tagJ <;> simp [decodeTagged] at h
  rename_i tag
  by_cases ht : tag = "uniform" ∨ tag = "normal" ∨ tag = "bernoulli"
  · rw [if_pos ht] at h
    cases paramsOpt with
    | none => simp at h
    | some params =>
        rcases ht with h' | h' | h' <;> subst h' <;> simp at h
        · exact decodeUniform_error_nonempty params "" h rfl
        · exact decodeNormal_error_nonempty params "" h rfl
        · exact decodeBernoulli_error_nonempty params "" h rfl
  · rw [if_neg ht] at h
    have hlen := congrArg String.length (Except.error.inj h)
    rw [String.length_append] at hlen
    rw [show ("unknown variant ").length = 16 from rfl] at hlen
    simp at hlen

/-- Every body decode error message is non-empty. -/
theorem decodeBody_error_nonempty (body : Option Json) (e : String)
    (h : decodeBody body = .error e) : e ≠ "" := by
  intro hemp
  subst hemp
  cases body with
  | none => simp [decodeBody] at h
  | some v =>
      cases v
      case arr xs =>
          rcases xs with _ | ⟨tagJ, _ | ⟨params, _ | ⟨j3, rest⟩⟩⟩ <;>
            simp [decodeBody, decodeRngRequest] at h
          exact decodeTagged_error_nonempty tagJ (some params) "" h rfl
      case obj fs =>
          simp [decodeBody, decodeRngRequest] at h
          cases hd1 : lookupDup fs "distribution" <;> simp [hd1] at h
          cases hd2 : lookupDup fs "parameters" <;> simp [hd2] at h
          cases hd : lookupField fs "distribution" <;> simp [hd] at h
          rename_i tagJ
          exact decodeTagged_error_nonempty tagJ (lookupField fs "parameters") "" h rfl
      all_goals simp [decodeBody, decodeRngRequest] at h

/-- C4 counterexample: the claim's "exactly when" taxonomy fails in both
directions. The seq form `["uniform", {"start": 1, "end": 10}]` has no
`distribution` field at all (the taxonomy says decoding must fail), yet
the derived deserializer accepts it; and an object duplicating the
`distribution` field satisfies the taxonomy (first-occurrence tag is
recognized, parameters valid), yet serde rejects it as a duplicate
field. -/
theorem decode_taxonomy_counterexample :
    (∃ r, decodeBody (some (.arr [.str "uniform",
        .obj [("start", .int 1), ("end", .int 10)]])) = .ok r) ∧
    ¬ WellFormedRngDoc (some (.arr [.str "uniform",
        .obj [("start", .int 1), ("end", .int 10)]])) ∧
    decodeBody (some (.obj [("distribution", .str "uniform"),
        ("distribution", .str "uniform"),
        ("parameters", .obj [("start", .int 1), ("end", .int 10)])])) =
      .error "duplicate field distribution" ∧
    WellFormedRngDoc (some (.obj [("distribution", .str "uniform"),
        ("distribution", .str "uniform"),
        ("parameters", .obj [("start", .int 1), ("end", .int 10)])])) := by
  refine ⟨⟨.uniform ⟨1, 10⟩, by rfl⟩, ?_, by rfl, ?_⟩
  · rintro ⟨fs, hfs, -⟩
    simp at hfs
  · refine ⟨[("distribution", .str "uniform"), ("distribution", .str "uniform"),
      ("parameters", .obj [("start", .int 1), ("end", .int 10)])], rfl,
      "uniform", by rfl, .obj [("start", .int 1), ("end", .int 10)], by rfl, ?_⟩
    refine Or.inl ⟨rfl, [("start", .int 1), ("end", .int 10)], rfl, ?_, ?_⟩
    · exact ⟨.int 1, by rfl, 1, rfl, by decide, by decide⟩
    · exact ⟨.int 10, by rfl, 10, rfl, by decide, by decide⟩

/-- C4 (amended): body decoding succeeds exactly when the body is
well-formed JSON in one of serde's two adjacently tagged shapes — an
object with non-duplicated `distribution`/`parameters` fields, or a
two-element `[tag, content]` array — with a recognized tag and required,
well-typed parameter fields (the non-flattened Normal/Bernoulli variants
also accept their parameters as arrays in declaration order); no range
validation, so `start > end` decodes; and every decode failure surfaces
as a 422 with a non-empty plain-text error body. -/
theorem decode_failure_characterization :
    (∀ body : Option Json, (∃ r, decodeBody body = .ok r) ↔ WellFormedRngDocFull body) ∧
    (∀ (body q : Option Json) (rng : RngState) (e : String),
      decodeBody body = .error e →
      microservice_handler ⟨"POST", "/random", q, body⟩ rng = some ⟨422, .text e⟩ ∧ e ≠ "") ∧
    decodeBody (some (uniformDoc 5 1)) = .ok (.uniform ⟨5, 1⟩) := by
  refine ⟨decodeBody_ok_iff, ?_,
    decodeBody_uniformDoc 5 1 (by decide) (by decide) (by decide) (by decide)⟩
  intro body q rng e h
  exact ⟨by simp [microservice_handler, h], decodeBody_error_nonempty body e h⟩

/-- C4 witness: `{"distribution":"bogus"}` is rejected with a 422 whose
body is the non-empty message naming the unknown variant. -/
theorem decode_failure_characterization_witness :
    microservice_handler
        ⟨"POST", "/random", none, some (.obj [("distribution", Json.str "bogus")])⟩ ⟨0, 0⟩ =
      some ⟨422, .text "unknown variant bogus"⟩ ∧
    "unknown variant bogus" ≠ "" :=
  decode_failure_characterization.2.1 (some (.obj [("distribution", Json.str "bogus")])) none
    ⟨0, 0⟩ "unknown variant bogus" (by rfl)
